import Mathlib

/-!
Verification development for the multi-provider AI gateway
(`src/backend/api_connector.py`, `src/backend/model_manager.py`,
`src/backend/ai_integration.py`).

The Python modules are shallowly embedded: Python `dict`s become
insertion-ordered association lists (matching CPython dict iteration
order), optional/absent dict keys become `Option`, raised exceptions
become explicit constructors, and the regex used by the connectors'
response extraction is embedded as an executable scanner with the exact
semantics of `re.findall` / `re.sub` for that one pattern.
-/

namespace NexusAI

/-! ## Python string helpers

`str.strip()` removes leading and trailing whitespace.  The repository
only ever strips ASCII text, so whitespace is modelled as the ASCII
whitespace characters Python strips. -/

def isPySpace (c : Char) : Bool :=
  c = ' ' || c = '\t' || c = '\n' || c = '\r' || c = '\x0b' || c = '\x0c'

def pyStrip (s : String) : String :=
  String.mk (((s.data.dropWhile isPySpace).reverse.dropWhile isPySpace).reverse)

/-! ## The fenced-code-block regex

Every connector in `api_connector.py` uses the same regular expression

  ` ```(?:\w+)?\n(.+?)\n``` `  with `re.DOTALL`

both in `re.findall` (to collect the interiors of the fenced blocks)
and in `re.sub` (to delete every fenced block).  Its matching semantics
for this fixed pattern:

* scanning is leftmost, one character at a time;
* a match begins with three backticks, then the maximal run of word
  characters (the greedy `\w+` either consumes the whole run or, with
  the `?`, none at all; any shorter run is followed by another word
  character and cannot be followed by the mandatory `\n`), then a
  mandatory newline;
* the interior is non-empty and minimal (`.+?` with DOTALL): it ends at
  the first later occurrence of `"\n```"`;
* successive matches are non-overlapping: scanning resumes after the
  closing fence.

`\w` is modelled as ASCII `[A-Za-z0-9_]` (the repository's language
tags such as `js` are ASCII). -/

def isWordChar (c : Char) : Bool :=
  c.isAlphanum || c = '_'

/-- Splits off a closing fence `"\n```"` if the text starts with one. -/
def closerSplit? : List Char → Option (List Char)
  | '\n' :: '`' :: '`' :: '`' :: r => some r
  | _ => none

/-- After an opening fence, finds the minimal non-empty interior
followed by a closing fence: returns `(interior, rest-after-closer)`. -/
def interiorSplit (acc : List Char) : List Char → Option (List Char × List Char)
  | [] => none
  | c :: t =>
    match closerSplit? t with
    | some r => some ((c :: acc).reverse, r)
    | none => interiorSplit (c :: acc) t

/-- Consumes an opening fence: three backticks, the maximal word-char
run (the optional language tag), then a mandatory newline. -/
def openerSplit? : List Char → Option (List Char)
  | '`' :: '`' :: '`' :: t =>
    (match t.dropWhile isWordChar with
     | '\n' :: t2 => some t2
     | _ => none)
  | _ => none

/-- Tries to match one whole fenced block at the head of the text:
returns `(interior, rest-after-closer)`. -/
def matchFenceAt (s : List Char) : Option (List Char × List Char) :=
  match openerSplit? s with
  | none => none
  | some t2 => interiorSplit [] t2

/-- One left-to-right scan collecting every (non-overlapping, leftmost)
match of the fence pattern: returns the list of
`(text-before-the-match, match-interior)` pairs together with the text
after the last match.  `fuel` bounds the recursion; it is always called
with `fuel = s.length`, which is sufficient since every recursive call
proceeds on a strict suffix. -/
def fenceScanAux : Nat → List Char → List (List Char × List Char) × List Char
  | 0, s => ([], s)
  | fuel + 1, s =>
    match s with
    | [] => ([], [])
    | c :: t =>
      match matchFenceAt s with
      | some (interior, rest) =>
        let pr := fenceScanAux fuel rest
        (([], interior) :: pr.1, pr.2)
      | none =>
        let pr := fenceScanAux fuel t
        match pr.1 with
        | [] => ([], c :: pr.2)
        | (pre, i) :: ps' => ((c :: pre, i) :: ps', pr.2)

def fenceScan (s : List Char) : List (List Char × List Char) × List Char :=
  fenceScanAux s.length s

/-- `re.findall(r'```(?:\w+)?\n(.+?)\n```', content, re.DOTALL)`:
the interiors of all fenced blocks, leftmost first. -/
def reFindall (content : String) : List String :=
  ((fenceScan content.data).1.map (fun p => String.mk p.2))

/-- `re.sub(r'```(?:\w+)?\n.+?\n```', '', content, flags=re.DOTALL)`:
the text with every fenced block deleted. -/
def reSub (content : String) : String :=
  String.mk ((((fenceScan content.data).1.map Prod.fst).flatten) ++ (fenceScan content.data).2)

/-! ## Results as Python dicts

The connectors and the manager pass around Python dicts whose relevant
keys are `"code"`, `"explanation"`, `"error"` and `"model"`; a key may
be absent (`none`).  `PyResult` projects such a dict onto those four
keys. -/

structure PyResult where
  code : Option String := none
  explanation : Option String := none
  error : Option String := none
  model : Option String := none
deriving DecidableEq, Repr

/-! ## `APIConnector._make_request` (api_connector.py lines 38-72)

The outcome of `self.session.request(...)` / `response.raise_for_status()`
/ `response.json()` is modelled abstractly: a call either raises a
`requests` exception before a response settles (timeout, transport
error), or settles with a final HTTP status, the `str(e)` detail an
`HTTPError` for that response would carry, and the JSON body (`none`
when the body is not valid JSON).  `raise_for_status` raises exactly
for statuses in `[400, 600)`; `Timeout`, `ConnectionError` and
`HTTPError` are all `requests.exceptions.RequestException`s, so all are
caught by the `except` clause, which returns `{"error": str(e)}`.
A JSON-decode failure in `response.json()` raises `ValueError`, which
is not a `RequestException` and escapes — modelled by `raised`. -/

inductive NetOutcome (β : Type) where
  | timeout (detail : String)
  | transportError (detail : String)
  | response (status : Nat) (httpDetail : String) (body : Option β)
deriving DecidableEq, Repr

inductive ReqResult (β : Type) where
  | errorDict (detail : String)
  | ok (body : β)
  | raised (msg : String)
deriving DecidableEq, Repr

def make_request {β : Type} : NetOutcome β → ReqResult β
  | .timeout d => .errorDict d
  | .transportError d => .errorDict d
  | .response status d body =>
    if 400 ≤ status ∧ status < 600 then .errorDict d
    else
      match body with
      | some b => .ok b
      | none => .raised "response body is not valid JSON"

/-- The failure outcomes the request layer actually converts into an
error dict: a timeout, a transport error, or a final response whose
status `raise_for_status` flags (4xx/5xx).  Non-2xx final statuses
outside `[400, 600)` — e.g. a `304`, or a 3xx that `requests` returns
as final — pass `raise_for_status` silently and are NOT failures of
this predicate, although the spec's "non-2xx status" wording covers
them. -/
def isNetworkFailure {β : Type} : NetOutcome β → Bool
  | .timeout _ => true
  | .transportError _ => true
  | .response s _ _ => decide (400 ≤ s ∧ s < 600)

/-- The `str(e)` detail of the exception a failing outcome raises. -/
def failureDetail {β : Type} : NetOutcome β → String
  | .timeout d => d
  | .transportError d => d
  | .response _ d _ => d

/-! ## `DeepSeekConnector.generate_code` (api_connector.py lines 86-142)

The JSON body of a successful chat/completions response, as navigated
by `response.get("choices", [{}])[0].get("message", {}).get("content", "")`,
together with the `"error" in response` membership test. -/

structure ChatMessage where
  content : Option String
deriving DecidableEq, Repr

structure ChatChoice where
  message : Option ChatMessage
deriving DecidableEq, Repr

structure ChatResponse where
  error : Option String
  choices : List ChatChoice
deriving DecidableEq, Repr

/-- `response.get("choices", [{}])[0].get("message", {}).get("content", "")`. -/
def chatContent (resp : ChatResponse) : String :=
  match resp.choices with
  | [] => ""
  | ch :: _ =>
    match ch.message with
    | none => ""
    | some msg => msg.content.getD ""

/-- api_connector.py lines 122-138: the shared response-extraction
algorithm.  The defaults assigned at lines 123-124 are dead stores:
`code` is always reassigned from the findall result or the whole
content, and `explanation` is always reassigned from the `re.sub`
result — the `"No explanation found in the response"` sentinel is never
returned. -/
def extract_code_explanation (content : String) : PyResult :=
  let code :=
    match reFindall content with
    | [] => content
    | b :: _ => b
  let explanation := pyStrip (reSub content)
  { code := some code, explanation := some explanation }

/-- What a connector call can do from the manager's point of view:
return a dict, or raise. -/
inductive ConnectorOutcome where
  | ok (r : PyResult)
  | raises (msg : String)
deriving DecidableEq, Repr

/-- `DeepSeekConnector.generate_code`, as a function of the outcome of
its `_make_request` call (the prompt/model/temperature only shape the
outgoing request).  An `"error"` key — whether from the request layer's
error dict or from the provider body — short-circuits; otherwise the
content is navigated out of the body and run through the extraction.
The `try`/`except` around the extraction is unreachable (`re` calls on
a `str` do not raise). -/
def deepseek_generate_code (net : ReqResult ChatResponse) : ConnectorOutcome :=
  match net with
  | .raised msg => .raises msg
  | .errorDict d => .ok { error := some d }
  | .ok resp =>
    match resp.error with
    | some e => .ok { error := some e }
    | none => .ok (extract_code_explanation (chatContent resp))

/-! ## Python dicts as insertion-ordered association lists

CPython dicts preserve insertion order: assigning to an existing key
keeps its position, assigning a fresh key appends, `del` removes, and
`next(iter(d))` yields the first key in insertion order. -/

def dlookup {β : Type} : List (String × β) → String → Option β
  | [], _ => none
  | (k, v) :: t, key => if k = key then some v else dlookup t key

/-- `d[k] = v`. -/
def dset {β : Type} : List (String × β) → String → β → List (String × β)
  | [], k, v => [(k, v)]
  | (k', v') :: t, k, v => if k' = k then (k, v) :: t else (k', v') :: dset t k v

/-- `del d[k]` (also a no-op when `k` is absent; the source only
deletes after an `in` check). -/
def dremove {β : Type} (d : List (String × β)) (k : String) : List (String × β) :=
  d.filter (fun p => p.1 ≠ k)

/-- `next(iter(d)) if d else None`. -/
def firstKey {β : Type} : List (String × β) → Option String
  | [] => none
  | (k, _) :: _ => some k

/-! ## `AIModelFactory.create_connector` (api_connector.py lines 438-460)

One concrete connector variant per provider, each holding the API key
it was constructed with.  An unknown model name raises `ValueError`,
modelled as `none`. -/

inductive Connector where
  | deepseek (api_key : String)
  | gemini (api_key : String)
  | openai (api_key : String)
  | grok (api_key : String)
  | claude (api_key : String)
deriving DecidableEq, Repr

def create_connector (model_name api_key : String) : Option Connector :=
  if model_name = "model1" then some (.deepseek api_key)
  else if model_name = "model2" then some (.gemini api_key)
  else if model_name = "model3" then some (.openai api_key)
  else if model_name = "model4" then some (.grok api_key)
  else if model_name = "model5" then some (.claude api_key)
  else none

/-! ## `ModelManager` (model_manager.py)

Session state: the credential map, the constructed-connector map, and
the active model. -/

structure ModelManager where
  api_keys : List (String × String)
  connectors : List (String × Connector)
  active_model : Option String
deriving DecidableEq, Repr

def mm_init : ModelManager :=
  { api_keys := [], connectors := [], active_model := none }

/-- `ModelManager.set_api_key` (lines 31-70).  The credential map is
written *before* the connector is constructed, so the write survives a
factory failure (the `except` clause only returns `False`).  A truthy
(non-empty) key constructs and stores a connector and adopts the model
as active when none is; a falsy (empty) key deletes the connector and,
when the deleted model was active, re-points the active model at the
first remaining connector, or clears it. -/
def mm_set_api_key (m : ModelManager) (model_name api_key : String) :
    Bool × ModelManager :=
  let m1 := { m with api_keys := dset m.api_keys model_name api_key }
  if api_key ≠ "" then
    match create_connector model_name api_key with
    | none => (false, m1)
    | some c =>
      let m2 := { m1 with connectors := dset m1.connectors model_name c }
      -- `self.active_model` has not been written yet, so the test reads
      -- the incoming state's value
      let m3 :=
        if m.active_model = none then { m2 with active_model := some model_name }
        else m2
      (true, m3)
  else
    let m2 := { m1 with connectors := dremove m1.connectors model_name }
    let m3 :=
      if m.active_model = some model_name then
        { m2 with active_model := firstKey m2.connectors }
      else m2
    (true, m3)

/-- `ModelManager.set_active_model` (lines 72-87). -/
def mm_set_active_model (m : ModelManager) (model_name : String) :
    Bool × ModelManager :=
  if (dlookup m.connectors model_name).isSome then
    (true, { m with active_model := some model_name })
  else
    (false, m)

/-- `ModelManager.generate_code` (lines 105-145), parametrised by the
behaviour `beh` of the connectors' `generate_code` calls (the HTTP
round trip).  The method never assigns to `self`, so it is a pure
function of the session state: the session is unchanged by every call.
The `temperature` parameter is a float passed through to the connector
untouched and is not modelled.  Note the truthiness test
`model_name if model_name else self.active_model`: an empty-string
explicit name falls back to the active model. -/
def mm_generate_code (m : ModelManager) (beh : Connector → String → ConnectorOutcome)
    (prompt : String) (model_name : Option String) : PyResult :=
  let model_to_use : Option String :=
    match model_name with
    | some n => if n = "" then m.active_model else some n
    | none => m.active_model
  match model_to_use with
  | none => { error := some "No active model set" }
  | some name =>
    match dlookup m.connectors name with
    | none => { error := some ("Model " ++ name ++ " not available") }
    | some c =>
      match beh c prompt with
      | .raises msg => { error := some ("Failed to generate code: " ++ msg) }
      | .ok r =>
        let r1 := { r with model := some name }
        let r2 :=
          if r1.code = none then { r1 with code := some "// No code generated" }
          else r1
        let r3 :=
          if r2.explanation = none then
            { r2 with explanation := some "No explanation provided" }
          else r2
        r3

/-- `ModelManager.generate_documentation` (lines 147-160): builds its
prompt and delegates to `generate_code`. -/
def mm_generate_documentation (m : ModelManager)
    (beh : Connector → String → ConnectorOutcome) (code : String)
    (model_name : Option String) : PyResult :=
  mm_generate_code m beh
    ("Generate comprehensive documentation for the following code:\n\n```\n" ++ code ++
      "\n```\n\nPlease include:\n1. Overview of what the code does\n2. Function/class descriptions\n3. Parameter explanations\n4. Return value descriptions\n5. Usage examples")
    model_name

/-- `ModelManager.generate_tests` (lines 162-175). -/
def mm_generate_tests (m : ModelManager)
    (beh : Connector → String → ConnectorOutcome) (code : String)
    (model_name : Option String) : PyResult :=
  mm_generate_code m beh
    ("Generate comprehensive test cases for the following code:\n\n```\n" ++ code ++
      "\n```\n\nPlease include:\n1. Unit tests for all functions/methods\n2. Edge case tests\n3. Integration tests if applicable\n4. Test setup and teardown code")
    model_name

/-- `ModelManager.fix_bugs` (lines 177-191). -/
def mm_fix_bugs (m : ModelManager)
    (beh : Connector → String → ConnectorOutcome) (code error_message : String)
    (model_name : Option String) : PyResult :=
  mm_generate_code m beh
    ("Fix the bugs in the following code that is producing this error:\n\nError: " ++
      error_message ++ "\n\nCode:\n```\n" ++ code ++
      "\n```\n\nPlease provide:\n1. The fixed code\n2. An explanation of what was wrong\n3. How the fix resolves the issue")
    model_name

/-- `ModelManager.optimize_code` (lines 193-207). -/
def mm_optimize_code (m : ModelManager)
    (beh : Connector → String → ConnectorOutcome) (code optimization_goal : String)
    (model_name : Option String) : PyResult :=
  mm_generate_code m beh
    ("Optimize the following code for " ++ optimization_goal ++ ":\n\n```\n" ++ code ++
      "\n```\n\nPlease provide:\n1. The optimized code\n2. An explanation of the optimizations made\n3. The expected improvements")
    model_name

/-- `ModelManager.save_api_keys` (lines 209-231) serialises exactly
`self.api_keys` (`json.dump(self.api_keys, f)`); this is the payload
written to the destination file. -/
def mm_save_payload (m : ModelManager) : List (String × String) :=
  m.api_keys

/-! ## Operation sequences over a `ModelManager` session

`load_api_keys` replays `set_api_key` for each loaded entry, and the
capability calls never assign to `self`, so the session-mutating
operations are exactly `set_api_key` and `set_active_model`. -/

inductive MMOp where
  | setKey (model_name api_key : String)
  | setActive (model_name : String)
deriving DecidableEq, Repr

def mm_step (m : ModelManager) : MMOp → ModelManager
  | .setKey n k => (mm_set_api_key m n k).2
  | .setActive n => (mm_set_active_model m n).2

def mm_run (ops : List MMOp) : ModelManager :=
  ops.foldl mm_step mm_init

/-- The session invariant: the active model, when set, is a key of the
connectors map. -/
def activeOk (m : ModelManager) : Prop :=
  ∀ n, m.active_model = some n → (dlookup m.connectors n).isSome = true

/-! ## `AIIntegration` (ai_integration.py)

The thin-wrapper front-end.  `AI_MODELS` is a fixed five-entry table;
`__init__` copies it and only overwrites `api_key` values of existing
keys, so the key set of `self.models` is always
`model1 … model5`.  For the delegation claims only the per-capability
model names and the API key of each entry matter. -/

structure ModelInfo where
  name : String
  api_key : Option String
  code_model : String
  chat_model : String
  vision_model : String
deriving DecidableEq, Repr

def AI_MODELS : List (String × ModelInfo) :=
  [("model1", { name := "Model 1", api_key := none, code_model := "deepseek-coder",
                chat_model := "deepseek-chat", vision_model := "deepseek-vision" }),
   ("model2", { name := "Model 2", api_key := none, code_model := "gemini-pro-code",
                chat_model := "gemini-pro", vision_model := "gemini-pro-vision" }),
   ("model3", { name := "Model 3", api_key := none, code_model := "gpt-5",
                chat_model := "gpt-5", vision_model := "gpt-5-vision" }),
   ("model4", { name := "Model 4", api_key := none, code_model := "grok-2",
                chat_model := "grok-2", vision_model := "grok-2-vision" }),
   ("model5", { name := "Model 5", api_key := none, code_model := "claude-3-opus",
                chat_model := "claude-3-opus", vision_model := "claude-3-opus" })]

structure AIIntegration where
  models : List (String × ModelInfo)
deriving DecidableEq, Repr

/-- `AIIntegration.set_api_key` (lines 95-111): overwrites the
`api_key` value of an existing entry, never adds a key. -/
def setInfoKey : List (String × ModelInfo) → String → String → List (String × ModelInfo)
  | [], _, _ => []
  | (n, info) :: t, name, key =>
    if n = name then (n, { info with api_key := some key }) :: t
    else (n, info) :: setInfoKey t name key

def ai_init : AIIntegration := { models := AI_MODELS }

def ai_set_api_key (ai : AIIntegration) (model_name api_key : String) :
    Bool × AIIntegration :=
  if (dlookup ai.models model_name).isSome then
    (true, { models := setInfoKey ai.models model_name api_key })
  else
    (false, ai)

/-- Where a capability method hands off after its checks: either an
error dict, or a call `self._call_<model_id>_api(prompt, mode)` — the
delegation target the claims are about (the interpolated prompt text is
passed through unchanged and not recorded here). -/
inductive Delegation where
  | call (model_id mode : String)
  | err (msg : String)
deriving DecidableEq, Repr

/-- The shared precondition of every capability method: the model must
be a key of `self.models` and its `api_key` must be truthy. -/
def ai_checks (ai : AIIntegration) (model_name : String) : Option (Delegation ⊕ ModelInfo) :=
  match dlookup ai.models model_name with
  | none => some (.inl (.err ("Unknown model: " ++ model_name)))
  | some info =>
    match info.api_key with
    | none => some (.inl (.err ("No API key provided for " ++ info.name)))
    | some k =>
      if k = "" then some (.inl (.err ("No API key provided for " ++ info.name)))
      else some (.inr info)

/-- The five-way `model1 … model5` dispatch shared by
`generate_code` / `generate_documentation` / `generate_tests` /
`fix_bugs`, parametrised by the mode each of them passes. -/
def dispatchModelN (model_name mode : String) : Delegation :=
  if model_name = "model1" then .call "model1" mode
  else if model_name = "model2" then .call "model2" mode
  else if model_name = "model3" then .call "model3" mode
  else if model_name = "model4" then .call "model4" mode
  else if model_name = "model5" then .call "model5" mode
  else .err ("API integration not implemented for " ++ model_name)

/-- `AIIntegration.generate_code` (lines 131-186): dispatches with mode
`"code"`. -/
def ai_generate_code_target (ai : AIIntegration) (model_name : String) : Delegation :=
  match ai_checks ai model_name with
  | some (.inl e) => e
  | _ => dispatchModelN model_name "code"

/-- `AIIntegration.generate_documentation` (lines 188-232): dispatches
with mode `"chat"`. -/
def ai_generate_documentation_target (ai : AIIntegration) (model_name : String) :
    Delegation :=
  match ai_checks ai model_name with
  | some (.inl e) => e
  | _ => dispatchModelN model_name "chat"

/-- `AIIntegration.generate_tests` (lines 234-279): dispatches with
mode `"code"`. -/
def ai_generate_tests_target (ai : AIIntegration) (model_name : String) : Delegation :=
  match ai_checks ai model_name with
  | some (.inl e) => e
  | _ => dispatchModelN model_name "code"

/-- `AIIntegration.fix_bugs` (lines 281-325): dispatches with mode
`"code"`. -/
def ai_fix_bugs_target (ai : AIIntegration) (model_name : String) : Delegation :=
  match ai_checks ai model_name with
  | some (.inl e) => e
  | _ => dispatchModelN model_name "code"

/-- `AIIntegration.optimize_code` (lines 327-371): its dispatch
branches on the legacy names `deepseek`/`gemini`/`chatgpt`/`grok`/`claude`,
none of which is ever a key of `self.models` (so for every reachable
call the `else` branch answers "API integration not implemented").
Each legacy branch invokes a `_call_<legacy>_api` method that does not
exist on the class; the resulting `AttributeError` is swallowed by the
surrounding `except` into a "Failed to optimize code: …" error dict. -/
def ai_optimize_code_target (ai : AIIntegration) (model_name : String) : Delegation :=
  match ai_checks ai model_name with
  | some (.inl e) => e
  | _ =>
    if model_name = "deepseek" then .err "Failed to optimize code: AttributeError"
    else if model_name = "gemini" then .err "Failed to optimize code: AttributeError"
    else if model_name = "chatgpt" then .err "Failed to optimize code: AttributeError"
    else if model_name = "grok" then .err "Failed to optimize code: AttributeError"
    else if model_name = "claude" then .err "Failed to optimize code: AttributeError"
    else .err ("API integration not implemented for " ++ model_name)

/-! ## Shared input data for concrete scenarios -/

/-- The end-to-end scenario's raw provider text. -/
def stubText : String :=
  "Here:\n```js\nfunction sum(a,b)\x7breturn a+b;\x7d\n```\nThis adds two numbers."

/-- A successful chat/completions body carrying `stubText`. -/
def stubResp : ChatResponse :=
  { error := none, choices := [{ message := some { content := some stubText } }] }

/-- A connector behaviour whose DeepSeek connector is stubbed to answer
with `stubText`. -/
def stubBeh : Connector → String → ConnectorOutcome :=
  fun c _ =>
    match c with
    | .deepseek _ => deepseek_generate_code (.ok stubResp)
    | _ => .ok {}

/-- A connector behaviour that answers with an empty dict. -/
def trivialBeh : Connector → String → ConnectorOutcome :=
  fun _ _ => .ok {}

/-- The manager after `set_api_key("model1", "k1")`. -/
def mgr1 : ModelManager := (mm_set_api_key mm_init "model1" "k1").2

/-- The front-end after `set_api_key(id, key)` on a fresh instance. -/
def ai_with (id key : String) : AIIntegration :=
  (ai_set_api_key ai_init id key).2

/-- A success result is fully populated: absent `error` forces `code`,
`explanation`, and a `model` provenance field naming a connector of the
session. -/
def fullyPopulated (m : ModelManager) (r : PyResult) : Prop :=
  r.error = none →
    r.code.isSome = true ∧ r.explanation.isSome = true ∧
    ∃ name, r.model = some name ∧ (dlookup m.connectors name).isSome = true

/-! ## Helper lemmas -/

theorem string_mk_data (s : String) : String.mk s.data = s := rfl

theorem fenceScanAux_nomatch (fuel : Nat) :
    ∀ s : List Char, (fenceScanAux fuel s).1 = [] → (fenceScanAux fuel s).2 = s := by
  induction fuel with
  | zero => intro s _; rfl
  | succ fuel ih =>
    intro s h
    cases s with
    | nil => rfl
    | cons c t =>
      by_cases hm : (matchFenceAt (c :: t)).isSome
      · obtain ⟨⟨interior, rest⟩, hmeq⟩ := Option.isSome_iff_exists.mp hm
        simp only [fenceScanAux, hmeq] at h
        exact absurd h (List.cons_ne_nil _ _)
      · rw [Option.not_isSome_iff_eq_none] at hm
        simp only [fenceScanAux, hm] at h ⊢
        cases hps : (fenceScanAux fuel t).1 with
        | nil =>
          simp only [hps]
          have := ih t hps
          rw [this]
        | cons p ps' =>
          simp only [hps] at h
          obtain ⟨pre, i⟩ := p
          simp at h

theorem reSub_of_nofence (s : String) (h : reFindall s = []) : reSub s = s := by
  have h1 : (fenceScan s.data).1 = [] := by
    have := List.map_eq_nil_iff.mp h
    exact this
  unfold reSub
  rw [h1]
  have h2 : (fenceScan s.data).2 = s.data := fenceScanAux_nomatch _ _ h1
  rw [h2]
  simp [string_mk_data]

theorem dlookup_dset_self {β : Type} (d : List (String × β)) (k : String) (v : β) :
    dlookup (dset d k v) k = some v := by
  induction d with
  | nil => simp [dset, dlookup]
  | cons p t ih =>
    obtain ⟨k', v'⟩ := p
    by_cases h : k' = k
    · simp [dset, h, dlookup]
    · simp [dset, h, dlookup, ih]

theorem dlookup_dset_ne {β : Type} (d : List (String × β)) (k k' : String) (v : β)
    (h : k' ≠ k) : dlookup (dset d k v) k' = dlookup d k' := by
  induction d with
  | nil => simp [dset, dlookup, Ne.symm h]
  | cons p t ih =>
    obtain ⟨a, b⟩ := p
    by_cases ha : a = k
    · subst ha
      simp [dset, dlookup, Ne.symm h]
    · simp [dset, ha, dlookup, ih]

theorem dlookup_dremove_self {β : Type} (d : List (String × β)) (k : String) :
    dlookup (dremove d k) k = none := by
  induction d with
  | nil => simp [dremove, dlookup]
  | cons p t ih =>
    obtain ⟨a, b⟩ := p
    by_cases ha : a = k
    · simpa [dremove, List.filter_cons, ha] using ih
    · simpa [dremove, List.filter_cons, ha, dlookup] using ih

theorem dlookup_dremove_ne {β : Type} (d : List (String × β)) (k k' : String)
    (h : k' ≠ k) : dlookup (dremove d k) k' = dlookup d k' := by
  induction d with
  | nil => simp [dremove, dlookup]
  | cons p t ih =>
    obtain ⟨a, b⟩ := p
    simp only [dremove, ne_eq, decide_not] at ih ⊢
    by_cases ha : a = k
    · subst ha
      simp [List.filter_cons, dlookup, Ne.symm h, ih]
    · simp [List.filter_cons, ha, dlookup, ih]

theorem firstKey_isSome {β : Type} (d : List (String × β)) (n : String)
    (h : firstKey d = some n) : (dlookup d n).isSome = true := by
  cases d with
  | nil => simp [firstKey] at h
  | cons p t =>
    obtain ⟨k, v⟩ := p
    simp only [firstKey, Option.some.injEq] at h
    subst h
    simp [dlookup]

theorem activeOk_init : activeOk mm_init := by
  intro n hn
  simp [mm_init] at hn

theorem activeOk_step (m : ModelManager) (op : MMOp) (h : activeOk m) :
    activeOk (mm_step m op) := by
  cases op with
  | setActive n =>
    intro n' hn'
    simp only [mm_step, mm_set_active_model] at hn' ⊢
    by_cases hc : (dlookup m.connectors n).isSome
    · rw [if_pos hc] at hn' ⊢
      simp only at hn' ⊢
      obtain rfl : n = n' := by simpa using hn'
      exact hc
    · rw [if_neg hc] at hn' ⊢
      exact h n' hn'
  | setKey n k =>
    intro n' hn'
    simp only [mm_step, mm_set_api_key] at hn' ⊢
    by_cases hk : k = ""
    · simp only [hk, ne_eq, not_true_eq_false, if_false] at hn' ⊢
      by_cases ha : m.active_model = some n
      · simp only [ha, if_true] at hn' ⊢
        exact firstKey_isSome _ _ hn'
      · simp only [if_neg ha] at hn' ⊢
        have hne : n' ≠ n := fun he => ha (he ▸ hn')
        rw [dlookup_dremove_ne _ _ _ hne]
        exact h n' hn'
    · simp only [ne_eq, hk, not_false_eq_true, if_true] at hn' ⊢
      cases hcc : create_connector n k with
      | none =>
        simp only [hcc] at hn' ⊢
        exact h n' hn'
      | some c =>
        simp only [hcc] at hn' ⊢
        by_cases ham : m.active_model = none
        · simp only [ham, if_true] at hn' ⊢
          obtain rfl : n = n' := by simpa using hn'
          simp [dlookup_dset_self]
        · simp only [if_neg ham] at hn' ⊢
          by_cases hne : n' = n
          · subst hne
            simp [dlookup_dset_self]
          · rw [dlookup_dset_ne _ _ _ _ hne]
            exact h n' hn'

theorem activeOk_run (ops : List MMOp) : activeOk (mm_run ops) := by
  have aux : ∀ (l : List MMOp) (m : ModelManager), activeOk m → activeOk (l.foldl mm_step m) := by
    intro l
    induction l with
    | nil => intro m hm; exact hm
    | cons op l ih =>
      intro m hm
      exact ih (mm_step m op) (activeOk_step m op hm)
  exact aux ops mm_init activeOk_init

theorem gen_code_cases (m : ModelManager)
    (beh : Connector → String → ConnectorOutcome) (prompt : String)
    (mname : Option String) (r : PyResult)
    (hr : mm_generate_code m beh prompt mname = r) (herr : r.error = none) :
    r.code.isSome = true ∧ r.explanation.isSome = true ∧
      ∃ name, r.model = some name ∧ (dlookup m.connectors name).isSome = true := by
  simp only [mm_generate_code] at hr
  repeat' split at hr
  all_goals rw [← hr] at herr ⊢
  all_goals try (exfalso; simp at herr; done)
  all_goals simp_all [Option.isSome_iff_ne_none]

theorem gen_code_fullyPopulated (m : ModelManager)
    (beh : Connector → String → ConnectorOutcome) (prompt : String)
    (mname : Option String) : fullyPopulated m (mm_generate_code m beh prompt mname) :=
  fun herr => gen_code_cases m beh prompt mname _ rfl herr

/-! ## Claims -/

/-- C1: every capability call on `ModelManager` that resolves a
connector and whose result lacks an `error` field carries both a `code`
and an `explanation` field (sentinel defaults substituted when the
connector omitted one) together with the provider id, which names a
connector of the session; the four prompt-building capabilities are
definitionally `generate_code` on their interpolated prompts, so one
quantification over the prompt covers them all. -/
theorem mm_success_results_fully_populated (m : ModelManager)
    (beh : Connector → String → ConnectorOutcome)
    (prompt codeArg errMsg goal : String) (mname : Option String) :
    fullyPopulated m (mm_generate_code m beh prompt mname) ∧
    fullyPopulated m (mm_generate_documentation m beh codeArg mname) ∧
    fullyPopulated m (mm_generate_tests m beh codeArg mname) ∧
    fullyPopulated m (mm_fix_bugs m beh codeArg errMsg mname) ∧
    fullyPopulated m (mm_optimize_code m beh codeArg goal mname) :=
  ⟨gen_code_fullyPopulated m beh prompt mname,
   gen_code_fullyPopulated m beh _ mname,
   gen_code_fullyPopulated m beh _ mname,
   gen_code_fullyPopulated m beh _ mname,
   gen_code_fullyPopulated m beh _ mname⟩

/-- Witness for C1 at a concrete session and stubbed connector. -/
theorem mm_success_results_fully_populated_witness :
    (mm_generate_code mgr1 stubBeh "p" none).code.isSome = true ∧
    (mm_generate_code mgr1 stubBeh "p" none).explanation.isSome = true :=
  by
    have h := (mm_success_results_fully_populated mgr1 stubBeh "p" "c" "e" "g" none).1
      (by decide)
    exact ⟨h.1, h.2.1⟩

/-- C2: after `set_api_key("model1", "k1")`, generating code with the
DeepSeek connector stubbed to answer the raw text of `stubText` yields
the byte-for-byte interior of the fence as `code`, the text with the
fence removed as `explanation`, provider id `model1`, and no error. -/
theorem mm_generate_code_model1_end_to_end :
    mm_generate_code mgr1 stubBeh "sum two numbers" none =
      { code := some "function sum(a,b)\x7breturn a+b;\x7d",
        explanation := some "Here:\n\nThis adds two numbers.",
        error := none,
        model := some "model1" } := by decide

/-- C3 counterexample: on the fence-free text `"hello"` the extraction
returns the text itself as the explanation, not the
`"No explanation found in the response"` sentinel the claim requires
(the sentinel default is unconditionally overwritten by the `re.sub`
result). -/
theorem extraction_nofence_sentinel_counterexample :
    reFindall "hello" = [] ∧
    (extract_code_explanation "hello").code = some "hello" ∧
    (extract_code_explanation "hello").explanation = some "hello" ∧
    (extract_code_explanation "hello").explanation ≠
      some "No explanation found in the response" := by decide

/-- C3 amended: for every input text with no fenced block, extraction
returns the whole text as `code` and the whitespace-stripped text —
not the sentinel — as `explanation`. -/
theorem extraction_nofence_returns_stripped_text (s : String)
    (h : reFindall s = []) :
    (extract_code_explanation s).code = some s ∧
    (extract_code_explanation s).explanation = some (pyStrip s) := by
  have hsub : reSub s = s := reSub_of_nofence s h
  unfold extract_code_explanation
  rw [h, hsub]
  exact ⟨rfl, rfl⟩

/-- Witness for the amended C3 at the fence-free text `"hello"`. -/
theorem extraction_nofence_returns_stripped_text_witness :
    (extract_code_explanation "hello").code = some "hello" ∧
    (extract_code_explanation "hello").explanation = some (pyStrip "hello") :=
  extraction_nofence_returns_stripped_text "hello" (by decide)

/-- C4: over every sequence of session operations the active model,
when set, is a key of the connectors map; and for distinct providers A
then B activated in that order (A active), clearing A's credential
moves the active model to B (the first remaining connector in
iteration order) and clearing B afterwards leaves it unset. -/
theorem active_model_invariant_and_reassignment :
    (∀ ops : List MMOp, activeOk (mm_run ops)) ∧
    (∀ A B kA kB : String, ∀ cA cB : Connector, A ≠ B → kA ≠ "" → kB ≠ "" →
      create_connector A kA = some cA → create_connector B kB = some cB →
      (mm_run [.setKey A kA, .setKey B kB]).active_model = some A ∧
      (mm_step (mm_run [.setKey A kA, .setKey B kB]) (.setKey A "")).active_model = some B ∧
      (mm_step (mm_step (mm_run [.setKey A kA, .setKey B kB]) (.setKey A ""))
        (.setKey B "")).active_model = none) := by
  constructor
  · exact activeOk_run
  · intro A B kA kB cA cB hAB hkA hkB hcA hcB
    have h1 : mm_run [.setKey A kA, .setKey B kB] =
        { api_keys := [(A, kA), (B, kB)],
          connectors := [(A, cA), (B, cB)],
          active_model := some A } := by
      simp [mm_run, mm_step, mm_set_api_key, mm_init, dset, hkA, hkB, hcA, hcB, hAB]
    have h2 : mm_step (mm_run [.setKey A kA, .setKey B kB]) (.setKey A "") =
        { api_keys := [(A, ""), (B, kB)],
          connectors := [(B, cB)],
          active_model := some B } := by
      rw [h1]
      simp [mm_step, mm_set_api_key, dset, dremove, List.filter_cons, firstKey,
        hAB, Ne.symm hAB]
    have h3 : mm_step (mm_step (mm_run [.setKey A kA, .setKey B kB]) (.setKey A ""))
        (.setKey B "") =
        { api_keys := [(A, ""), (B, "")],
          connectors := [],
          active_model := none } := by
      rw [h2]
      simp [mm_step, mm_set_api_key, dset, dremove, List.filter_cons, firstKey,
        hAB, Ne.symm hAB]
    refine ⟨?_, ?_, ?_⟩
    · rw [h1]
    · rw [h2]
    · rw [h3]

/-- Witness for C4 with A = model1, B = model2. -/
theorem active_model_invariant_and_reassignment_witness :
    (dlookup (mm_run [.setKey "model1" "k1"]).connectors "model1").isSome = true ∧
    (mm_step (mm_step (mm_run [.setKey "model1" "k1", .setKey "model2" "k2"])
      (.setKey "model1" "")) (.setKey "model2" "")).active_model = none := by
  constructor
  · exact active_model_invariant_and_reassignment.1 [.setKey "model1" "k1"] "model1"
      (by decide)
  · exact (active_model_invariant_and_reassignment.2 "model1" "model2" "k1" "k2"
      (.deepseek "k1") (.gemini "k2") (by decide) (by decide) (by decide) rfl rfl).2.2

/-- C5 counterexample: setting an empty key for `model1` does not
remove the stored credential entry — the entry survives with the empty
string as its value (`self.api_keys[model_name] = api_key` runs
unconditionally). -/
theorem set_empty_key_keeps_credential_entry_counterexample :
    dlookup (mm_set_api_key (mm_set_api_key mm_init "model1" "k1").2
      "model1" "").2.api_keys "model1" = some "" ∧
    dlookup (mm_set_api_key (mm_set_api_key mm_init "model1" "k1").2
      "model1" "").2.api_keys "model1" ≠ none := by decide

/-- C5 amended: an empty key removes the stored connector but
overwrites the credential entry with the empty string (the entry is not
removed), and a subsequent `generate_code` explicitly naming that
provider fails with the provider-not-available error regardless of the
connector behaviour. -/
theorem set_empty_key_removes_connector_keeps_entry (m : ModelManager)
    (id : String) (hid : id ≠ "") :
    (mm_set_api_key m id "").1 = true ∧
    dlookup (mm_set_api_key m id "").2.connectors id = none ∧
    dlookup (mm_set_api_key m id "").2.api_keys id = some "" ∧
    ∀ beh prompt, mm_generate_code (mm_set_api_key m id "").2 beh prompt (some id) =
      { error := some ("Model " ++ id ++ " not available") } := by
  have hconn : (mm_set_api_key m id "").2.connectors = dremove m.connectors id := by
    simp only [mm_set_api_key, ne_eq, not_true_eq_false, if_false]
    split <;> rfl
  have hkeys : (mm_set_api_key m id "").2.api_keys = dset m.api_keys id "" := by
    simp only [mm_set_api_key, ne_eq, not_true_eq_false, if_false]
    split <;> rfl
  refine ⟨?_, ?_, ?_, ?_⟩
  · simp only [mm_set_api_key, ne_eq, not_true_eq_false, if_false]
  · rw [hconn]
    exact dlookup_dremove_self _ _
  · rw [hkeys]
    exact dlookup_dset_self _ _ _
  · intro beh prompt
    have hnone : dlookup (mm_set_api_key m id "").2.connectors id = none := by
      rw [hconn]; exact dlookup_dremove_self _ _
    simp [mm_generate_code, hid, hnone]

/-- Witness for the amended C5 at `model1` on a fresh session. -/
theorem set_empty_key_removes_connector_keeps_entry_witness :
    dlookup (mm_set_api_key mm_init "model1" "").2.connectors "model1" = none ∧
    mm_generate_code (mm_set_api_key mm_init "model1" "").2 trivialBeh "p"
      (some "model1") = { error := some ("Model " ++ "model1" ++ " not available") } := by
  have h := set_empty_key_removes_connector_keeps_entry mm_init "model1" (by decide)
  exact ⟨h.2.1, h.2.2.2 trivialBeh "p"⟩

/-- C6: `generate_code` with an explicit (non-empty) provider id that
has no connector returns the provider-not-available error for every
connector behaviour — the quantification over `beh` shows no connector
(hence no network request) is ever invoked.  The method never assigns
to `self`, so the session state is a read-only input of the embedding
and is unchanged by the call. -/
theorem generate_code_unknown_provider_error (m : ModelManager)
    (beh : Connector → String → ConnectorOutcome) (prompt id : String)
    (hid : id ≠ "") (h : dlookup m.connectors id = none) :
    mm_generate_code m beh prompt (some id) =
      { error := some ("Model " ++ id ++ " not available") } := by
  simp [mm_generate_code, hid, h]

/-- Witness for C6 at provider `model9` on a fresh session. -/
theorem generate_code_unknown_provider_error_witness :
    mm_generate_code mm_init trivialBeh "p" (some "model9") =
      { error := some ("Model " ++ "model9" ++ " not available") } :=
  generate_code_unknown_provider_error mm_init trivialBeh "p" "model9"
    (by decide) (by decide)

/-- C7 counterexample: on a text with two fenced blocks the extraction
takes the first block's interior as `code`, but the explanation has
BOTH blocks removed (`re.sub` deletes every match), not just the
leftmost one as the claim requires. -/
theorem extraction_removes_all_blocks_counterexample :
    reFindall "a\n```\nx\n```\nb\n```\ny\n```\nc" = ["x", "y"] ∧
    (extract_code_explanation "a\n```\nx\n```\nb\n```\ny\n```\nc").code = some "x" ∧
    (extract_code_explanation "a\n```\nx\n```\nb\n```\ny\n```\nc").explanation =
      some "a\n\nb\n\nc" ∧
    (extract_code_explanation "a\n```\nx\n```\nb\n```\ny\n```\nc").explanation ≠
      some "a\n\nb\n```\ny\n```\nc" := by decide

/-- C7 amended: for every input text containing at least one fenced
block, `code` is the interior of the leftmost block only (later blocks
are not extracted as code), and `explanation` is the original text with
ALL fenced blocks removed and surrounding whitespace trimmed. -/
theorem extraction_first_block_code_all_blocks_removed (s b : String)
    (bs : List String) (h : reFindall s = b :: bs) :
    (extract_code_explanation s).code = some b ∧
    (extract_code_explanation s).explanation = some (pyStrip (reSub s)) := by
  unfold extract_code_explanation
  rw [h]
  exact ⟨rfl, rfl⟩

/-- Witness for the amended C7 at the two-block text. -/
theorem extraction_first_block_code_all_blocks_removed_witness :
    (extract_code_explanation "a\n```\nx\n```\nb\n```\ny\n```\nc").code = some "x" ∧
    (extract_code_explanation "a\n```\nx\n```\nb\n```\ny\n```\nc").explanation =
      some (pyStrip (reSub "a\n```\nx\n```\nb\n```\ny\n```\nc")) :=
  extraction_first_block_code_all_blocks_removed _ "x" ["y"] (by decide)

/-- C8 counterexample: with a key set for `model1`, test generation
delegates to the `"code"` capability (not `"chat"` as the claim
requires), and optimization delegates to no capability at all — it
answers the not-implemented error because its dispatch branches on
legacy provider names that are never keys of the model table. -/
theorem capability_delegation_counterexample :
    ai_generate_tests_target (ai_with "model1" "k") "model1" =
      Delegation.call "model1" "code" ∧
    Delegation.call "model1" "code" ≠ Delegation.call "model1" "chat" ∧
    ai_optimize_code_target (ai_with "model1" "k") "model1" =
      Delegation.err "API integration not implemented for model1" := by decide

/-- C8 amended: for every provider of the closed set with a non-empty
key, code generation, bug fixing AND test generation delegate to the
provider's `"code"` capability; documentation delegates to `"chat"`;
optimization delegates to no capability and returns the
not-implemented error. -/
theorem capability_delegation_modes (id key : String) (hk : key ≠ "")
    (hid : id = "model1" ∨ id = "model2" ∨ id = "model3" ∨ id = "model4" ∨
      id = "model5") :
    ai_generate_code_target (ai_with id key) id = Delegation.call id "code" ∧
    ai_fix_bugs_target (ai_with id key) id = Delegation.call id "code" ∧
    ai_generate_tests_target (ai_with id key) id = Delegation.call id "code" ∧
    ai_generate_documentation_target (ai_with id key) id = Delegation.call id "chat" ∧
    ai_optimize_code_target (ai_with id key) id =
      Delegation.err ("API integration not implemented for " ++ id) := by
  rcases hid with rfl | rfl | rfl | rfl | rfl <;>
    simp [ai_with, ai_set_api_key, ai_init, AI_MODELS, dlookup, setInfoKey,
      ai_checks, dispatchModelN, ai_generate_code_target, ai_fix_bugs_target,
      ai_generate_tests_target, ai_generate_documentation_target,
      ai_optimize_code_target, hk]

/-- Witness for the amended C8 at `model1` with key `"k"`. -/
theorem capability_delegation_modes_witness :
    ai_generate_tests_target (ai_with "model1" "k") "model1" =
      Delegation.call "model1" "code" ∧
    ai_generate_documentation_target (ai_with "model1" "k") "model1" =
      Delegation.call "model1" "chat" :=
  ⟨(capability_delegation_modes "model1" "k" (by decide) (Or.inl rfl)).2.2.1,
   (capability_delegation_modes "model1" "k" (by decide) (Or.inl rfl)).2.2.2.1⟩

/-- C9 counterexample: a final `304 Not Modified` response has a
non-2xx HTTP status, so the claim calls it a network failure and
requires an error-carrying result; but `raise_for_status` flags only
statuses in `[400, 600)`, so the `304` passes it silently: with a
parseable JSON body `_make_request` returns the body with NO error
field, and with an unparseable body the `response.json()` `ValueError`
— not a `RequestException` — escapes the connector boundary. -/
theorem make_request_non2xx_not_flagged_counterexample :
    ¬(200 ≤ (304 : Nat) ∧ (304 : Nat) < 300) ∧
    make_request (NetOutcome.response 304 "304 Not Modified"
        (some ({ error := none, choices := [] } : ChatResponse))) =
      ReqResult.ok ({ error := none, choices := [] } : ChatResponse) ∧
    make_request (NetOutcome.response 304 "304 Not Modified"
        (none : Option ChatResponse)) =
      ReqResult.raised "response body is not valid JSON" := by decide

/-- C9 amended: every network failure that the request layer's
`except` clause actually covers — a timeout, a transport error, or a
final response whose status `raise_for_status` flags (4xx/5xx) — makes
`_make_request` return the `{"error": detail}` dict (the
`RequestException` is caught), and no exception propagates past the
connector boundary for such outcomes.  Non-2xx final statuses outside
`[400, 600)` are excluded: for those the body is returned without an
error field, or `response.json()`'s `ValueError` escapes (see the
counterexample). -/
theorem make_request_failure_returns_error_dict {β : Type}
    (o : NetOutcome β) (h : isNetworkFailure o = true) :
    make_request o = ReqResult.errorDict (failureDetail o) ∧
    ∀ msg, make_request o ≠ ReqResult.raised msg := by
  cases o with
  | timeout d => exact ⟨rfl, by simp [make_request]⟩
  | transportError d => exact ⟨rfl, by simp [make_request]⟩
  | response s d body =>
    have hs : 400 ≤ s ∧ s < 600 := by simpa [isNetworkFailure] using h
    constructor
    · simp [make_request, hs, failureDetail]
    · intro msg
      simp [make_request, hs]

/-- Witness for C9 at a concrete timeout outcome. -/
theorem make_request_failure_returns_error_dict_witness :
    make_request (NetOutcome.timeout "timed out" : NetOutcome Unit) =
      ReqResult.errorDict "timed out" :=
  (make_request_failure_returns_error_dict (NetOutcome.timeout "timed out") rfl).1

/-- C10: `set_api_key` with a non-empty key for an id outside the
closed set returns `False`, yet the key is recorded in the credential
map before the factory raises, so `save_api_keys` persists the unknown
id's key; the connectors map and the active model are unchanged. -/
theorem set_api_key_unknown_provider_records_key (m : ModelManager)
    (id key : String) (hk : key ≠ "") (hc : create_connector id key = none) :
    (mm_set_api_key m id key).1 = false ∧
    dlookup (mm_set_api_key m id key).2.api_keys id = some key ∧
    (mm_set_api_key m id key).2.connectors = m.connectors ∧
    (mm_set_api_key m id key).2.active_model = m.active_model ∧
    dlookup (mm_save_payload (mm_set_api_key m id key).2) id = some key := by
  simp [mm_set_api_key, hk, hc, mm_save_payload, dlookup_dset_self]

/-- Witness for C10 at the unknown id `model9`. -/
theorem set_api_key_unknown_provider_records_key_witness :
    (mm_set_api_key mm_init "model9" "k").1 = false ∧
    dlookup (mm_save_payload (mm_set_api_key mm_init "model9" "k").2) "model9" =
      some "k" := by
  have h := set_api_key_unknown_provider_records_key mm_init "model9" "k"
    (by decide) (by decide)
  exact ⟨h.1, h.2.2.2.2⟩

end NexusAI
